import Mathlib

/-!
Verification development for the VLSI LLM/RAG front-end client.

The development shallowly embeds the state-carrying parts of the repository:

* `Upload` page (src/unnamed/part_000, `src/pages/Upload.jsx`): the
  module/category upload tree builder and its submit handler, which persists
  a single `uploadPackage` document under the `localStorage` key `uploadData`.
* `StatusPanel` (frontend/code_snippet_fronetnd.md, `src/components/StatusPanel.jsx`):
  the two `setInterval` polling loops over `/status/{id}` and `/logs/{id}`,
  modelled as a small-step state machine with explicitly pending fetches.
* `CodeViewer` page (frontend/src/pages/CodeViewer.jsx): loading the persisted
  package (`JSON.parse` of `localStorage.getItem("uploadData")`) and the
  object-URL creation performed while rendering file links.
* `downloadFile` in `Outputs` (src/unnamed/part_002): the create/click/revoke
  object-URL sequence.

JavaScript objects used as string-keyed maps are embedded as association
lists; `{...prev, [k]: v}` keeps an existing key in place and appends a new
key at the end, which `setKey` below reproduces.
-/

/-- A user-selected file: name, size and an opaque payload identity
(standing for the `File` object's bytes). -/
structure FileRef where
  name : String
  sizeBytes : Nat
  payload : Nat
  deriving Repr, DecidableEq

/-- `prev[k]`: association-list lookup, JavaScript property read. -/
def getKey {β : Type} : List (String × β) → String → Option β
  | [], _ => none
  | (k', v') :: rest, k => if k' = k then some v' else getKey rest k

/-- `{...prev, [k]: v}`: replace the binding for `k` in place if present,
otherwise append it. -/
def setKey {β : Type} : List (String × β) → String → β → List (String × β)
  | [], k, v => [(k, v)]
  | (k', v') :: rest, k, v =>
      if k' = k then (k, v) :: rest else (k', v') :: setKey rest k v

/-- JavaScript `String.prototype.trim()`: strip leading and trailing
whitespace.  Implemented over the character list so that it evaluates by
kernel reduction (Lean core's `String.trim` is opaque to it). -/
def jsTrim (s : String) : String :=
  String.mk
    (((s.data.dropWhile Char.isWhitespace).reverse.dropWhile
        Char.isWhitespace).reverse)

/-- `uploads` state: moduleName → categoryKey → file list, both levels plain
JavaScript objects in the source. -/
def Uploads : Type := List (String × List (String × List FileRef))

instance : DecidableEq Uploads := by
  unfold Uploads
  infer_instance

instance : Repr Uploads := by
  unfold Uploads
  infer_instance

/-- The `uploadPackage` object built by `handleSubmit` and stored under
`localStorage["uploadData"]`:
`{ topModule, subModules: subModuleNames, uploads }`. -/
structure UploadPackage where
  topModule : String
  subModules : List String
  uploads : Uploads
  deriving Repr, DecidableEq

/-- The `Upload` component's state hooks plus the persisted document:
`topModule`, `numSubModules`, `subModuleNames`, `uploads`, `submitStatus`
are the `useState` hooks; `persisted` models the `uploadData` key of
`localStorage` (the JSON document, held structurally). -/
structure UploadState where
  topModule : String
  numSubModules : Nat
  subModuleNames : List String
  uploads : Uploads
  submitStatus : String
  persisted : Option UploadPackage
  deriving Repr, DecidableEq

/-- Initial hook values: `useState('')`, `useState(1)`, `useState([''])`,
`useState({})`, `useState('')`; `persisted` is whatever `localStorage`
already holds. -/
def initUpload (persisted : Option UploadPackage) : UploadState :=
  { topModule := ""
    numSubModules := 1
    subModuleNames := [""]
    uploads := []
    submitStatus := ""
    persisted := persisted }

/-- The top-module text input's `onChange`: `setTopModule(e.target.value)` —
the raw value is stored, with no trimming. -/
def setTopModule (s : UploadState) (name : String) : UploadState :=
  { s with topModule := name }

/-- `handleSubModuleNameChange(idx, value)`: `newNames[idx] = value` on a
copy of the array (out-of-range writes are dropped, as `List.set` does
nothing there; the component only renders in-range indices). -/
def handleSubModuleNameChange (s : UploadState) (idx : Nat) (value : String) :
    UploadState :=
  { s with subModuleNames := s.subModuleNames.set idx value }

/-- `handleUpload(module, category, files)`:
`setUploads(prev => ({...prev, [module]: {...(prev[module] || {}), [category]: files}}))`. -/
def handleUpload (s : UploadState) (module category : String)
    (files : List FileRef) : UploadState :=
  { s with
      uploads :=
        setKey s.uploads module
          (setKey ((getKey s.uploads module).getD []) category files) }

/-- `handleNumSubModulesChange`: `count = Math.max(1, parseInt(v) || 1)`;
the argument is `none` when `parseInt` returned `NaN`. The names array is
grown by pushing `''` and shrunk by popping from the tail. -/
def handleNumSubModulesChange (s : UploadState) (input : Option Int) :
    UploadState :=
  let parsed : Int := match input with
    | none => 1
    | some v => if v = 0 then 1 else v
  let count : Nat := (max 1 parsed).toNat
  let names :=
    if s.subModuleNames.length < count then
      s.subModuleNames ++ List.replicate (count - s.subModuleNames.length) ""
    else
      s.subModuleNames.take count
  { s with numSubModules := count, subModuleNames := names }

/-- Outcome of `handleSubmit`: the two `alert(...)`-and-return validation
paths, or success with the finalized package. -/
inductive SubmitOutcome
  | errTopModule
  | errSubModules
  | submitted (pkg : UploadPackage)
  deriving Repr, DecidableEq

/-- The package `handleSubmit` assembles on the success path:
`{ topModule, subModules: subModuleNames, uploads }` — fields are passed
through exactly as held in state. -/
def mkPackage (s : UploadState) : UploadPackage :=
  { topModule := s.topModule
    subModules := s.subModuleNames
    uploads := s.uploads }

/-- `handleSubmit`:
`if (!topModule.trim()) { alert(...); return }` then
`if (subModuleNames.some(name => !name.trim())) { alert(...); return }`;
on success `localStorage.setItem("uploadData", JSON.stringify(uploadPackage))`
(modelled as replacing `persisted` wholesale) and
`setSubmitStatus("Submitted successfully! Redirecting...")`.
There is no duplicate-name check and no filtering of `uploads`. -/
def handleSubmit (s : UploadState) : SubmitOutcome × UploadState :=
  if jsTrim s.topModule = "" then
    (SubmitOutcome.errTopModule, s)
  else if s.subModuleNames.any (fun name => jsTrim name = "") then
    (SubmitOutcome.errSubModules, s)
  else
    let pkg := mkPackage s
    (SubmitOutcome.submitted pkg,
      { s with
          persisted := some pkg
          submitStatus := "Submitted successfully! Redirecting..." })

/-- The spec's finalization invariant: every key of `uploads` names either
`topModule` or an entry of `subModules`. -/
def packageInvariant (p : UploadPackage) : Prop :=
  ∀ k ∈ p.uploads.map Prod.fst, k = p.topModule ∨ k ∈ p.subModules

instance (p : UploadPackage) : Decidable (packageInvariant p) := by
  unfold packageInvariant
  infer_instance

/-!
### TaskMonitor: the polling `StatusPanel`

`StatusPanel({ taskId })` runs a `useEffect` keyed on `taskId`.  Each effect
run is one *epoch*: it early-returns when `taskId` is falsy, otherwise sets a
fresh `mounted = true` closure flag and two `setInterval` timers (status every
1500 ms, logs every 2000 ms).  The cleanup — run on unmount or before the next
effect run when `taskId` changes — sets `mounted = false` and clears both
timers.  An interval callback awaits its fetch and then checks `if (!mounted)
return` before applying the response, so a response is applied exactly when
the epoch that dispatched it is still the current, uncleaned epoch.  We tag
each in-flight fetch with its dispatch epoch; the `mounted` test becomes
`fetch.epoch = current epoch ∧ active`.
-/

/-- `setInterval(..., 1500)` period of the status loop, in milliseconds. -/
def statusIntervalMs : Nat := 1500

/-- `setInterval(..., 2000)` period of the log loop, in milliseconds. -/
def logsIntervalMs : Nat := 2000

/-- The component's three state hooks: `useState(null)`, `useState(0)`,
`useState('')`. -/
structure Snapshot where
  status : Option String
  progress : Int
  logs : String
  deriving Repr, DecidableEq

/-- Initial snapshot: `status = null`, `progress = 0`, `logs = ''`. -/
def initSnapshot : Snapshot :=
  { status := none, progress := 0, logs := "" }

/-- Which endpoint a pending fetch targets. -/
inductive FetchKind
  | statusFetch
  | logsFetch
  deriving Repr, DecidableEq

/-- An in-flight request: the epoch (effect run) whose interval callback
dispatched it, and the `taskId` baked into its URL. -/
structure Fetch where
  epoch : Nat
  taskId : String
  kind : FetchKind
  deriving Repr, DecidableEq

/-- Body of a successful `/status/{id}` response: `res.data.status` and
`res.data.progress` (the latter possibly absent — `undefined`). -/
structure StatusResp where
  status : String
  progress : Option Int
  deriving Repr, DecidableEq

/-- `res.data.progress || 0`: absent and zero both collapse to `0`,
any other number passes through unmodified. -/
def jsOrZero (p : Option Int) : Int :=
  match p with
  | none => 0
  | some v => if v = 0 then 0 else v

/-- One monitor instance: the snapshot, the current effect epoch, whether that
epoch is still mounted (`active`), the `taskId` it closed over, the in-flight
fetches, the current time and the next firing time of each interval (set while
the epoch is live, cleared by cleanup). -/
structure MonitorState where
  snapshot : Snapshot
  epoch : Nat
  active : Bool
  boundId : String
  pending : List Fetch
  now : Nat
  nextStatusAt : Option Nat
  nextLogsAt : Option Nat
  deriving Repr, DecidableEq

/-- A freshly mounted panel before any effect has run: no task bound,
timers unset, snapshot at its hook defaults. -/
def initMonitor : MonitorState :=
  { snapshot := initSnapshot
    epoch := 0
    active := false
    boundId := ""
    pending := []
    now := 0
    nextStatusAt := none
    nextLogsAt := none }

/-- The effect cleanup `() => { mounted = false; clearInterval(interval);
clearInterval(logInterval) }`: the epoch's flag is lowered and both timers
cleared; in-flight requests are not cancelled at the transport level. -/
def cleanupMonitor (s : MonitorState) : MonitorState :=
  { s with active := false, nextStatusAt := none, nextLogsAt := none }

/-- A `taskId` change: React runs the previous effect's cleanup, then the new
effect body.  With a falsy (empty) `taskId` the body early-returns
(`if(!taskId) return`): nothing is scheduled.  Otherwise a new epoch begins:
`mounted = true` and both intervals are installed, each first firing one full
period from now — `setInterval` alone schedules no immediate call. -/
def startMonitor (s : MonitorState) (id : String) : MonitorState :=
  let c := cleanupMonitor s
  if id = "" then
    { c with boundId := id }
  else
    { c with
        epoch := s.epoch + 1
        active := true
        boundId := id
        nextStatusAt := some (s.now + statusIntervalMs)
        nextLogsAt := some (s.now + logsIntervalMs) }

/-- Unmount: only the cleanup runs. -/
def stopMonitor (s : MonitorState) : MonitorState :=
  cleanupMonitor s

/-- The status interval fires (time advances to the scheduled instant): the
callback dispatches `GET /status/{taskId}` tagged with the current epoch, and
`setInterval` rearms one period later.  No timer, no firing. -/
def fireStatus (s : MonitorState) : MonitorState :=
  match s.nextStatusAt with
  | none => s
  | some t =>
      { s with
          now := t
          pending := s.pending ++ [⟨s.epoch, s.boundId, FetchKind.statusFetch⟩]
          nextStatusAt := some (t + statusIntervalMs) }

/-- The log interval fires, dispatching `GET /logs/{taskId}` likewise. -/
def fireLogs (s : MonitorState) : MonitorState :=
  match s.nextLogsAt with
  | none => s
  | some t =>
      { s with
          now := t
          pending := s.pending ++ [⟨s.epoch, s.boundId, FetchKind.logsFetch⟩]
          nextLogsAt := some (t + logsIntervalMs) }

/-- A status fetch settles.  `none` is a rejected promise: the `catch` only
logs, touching no state.  On success the callback resumes, checks
`if(!mounted) return` — its epoch's flag, i.e. the epoch is still current and
uncleaned — and only then runs `setStatus(res.data.status)` and
`setProgress(res.data.progress || 0)`. -/
def completeStatus (s : MonitorState) (f : Fetch) :
    Option StatusResp → MonitorState
  | none => { s with pending := s.pending.erase f }
  | some resp =>
      if f.epoch = s.epoch ∧ s.active = true then
        { s with
            pending := s.pending.erase f
            snapshot :=
              { s.snapshot with
                  status := some resp.status
                  progress := jsOrZero resp.progress } }
      else { s with pending := s.pending.erase f }

/-- A log fetch settles.  Failure (`catch(e){}`) touches nothing; success
passes the same `mounted` gate and then runs `setLogs(r.data.logs)` —
a wholesale replacement of the `logs` hook value. -/
def completeLogs (s : MonitorState) (f : Fetch) : Option String → MonitorState
  | none => { s with pending := s.pending.erase f }
  | some logsVal =>
      if f.epoch = s.epoch ∧ s.active = true then
        { s with
            pending := s.pending.erase f
            snapshot := { s.snapshot with logs := logsVal } }
      else { s with pending := s.pending.erase f }

/-- Everything that can happen to one panel instance. -/
inductive MEvent
  | startEv (id : String)
  | stopEv
  | statusTimer
  | logsTimer
  | statusDone (f : Fetch) (r : Option StatusResp)
  | logsDone (f : Fetch) (r : Option String)

/-- Small-step interpreter tying the events to the transition functions. -/
def mstep (s : MonitorState) : MEvent → MonitorState
  | MEvent.startEv id => startMonitor s id
  | MEvent.stopEv => stopMonitor s
  | MEvent.statusTimer => fireStatus s
  | MEvent.logsTimer => fireLogs s
  | MEvent.statusDone f r => completeStatus s f r
  | MEvent.logsDone f r => completeLogs s f r

/-- A fetch whose dispatching epoch has been cleaned up: either a later
effect run has begun, or the current run was unmounted.  Its callback's
`mounted` flag is `false`, so its response can never be applied. -/
def staleFetch (s : MonitorState) (f : Fetch) : Prop :=
  f.epoch ≠ s.epoch ∨ s.active = false

instance (s : MonitorState) (f : Fetch) : Decidable (staleFetch s f) := by
  unfold staleFetch
  infer_instance

/-!
### CodeViewer: loading the persisted package

`CodeViewer` reads `localStorage.getItem("uploadData")` in an effect and, when
the value is truthy, runs `setData(JSON.parse(saved))` with no `try`/`catch`:
a parse failure throws out of the effect, crashing the component.  The render
then dereferences `data.uploads[data.topModule]` and `data.subModules.map`,
which throw when the parsed document lacks those shapes.  `JSON.parse` is a
platform builtin; it is modelled here by a fuel-bounded recursive-descent
parser over the JSON grammar (numeric values are kept only to integer
precision and escape sequences are decoded approximately — neither affects
whether a document parses at the granularity these claims need).
-/

/-- Parsed JSON document. -/
inductive Json
  | null
  | bool (b : Bool)
  | num (n : Int)
  | str (s : String)
  | arr (elems : List Json)
  | obj (members : List (String × Json))
  deriving Repr

/-- Drop JSON whitespace. -/
def skipWs : List Char → List Char
  | c :: cs =>
      if c = ' ' ∨ c = '\n' ∨ c = '\t' ∨ c = '\r' then skipWs cs else c :: cs
  | [] => []

/-- Longest digit run at the front. -/
def takeDigits : List Char → List Char × List Char
  | [] => ([], [])
  | c :: cs =>
      if c.isDigit then
        let (ds, rest) := takeDigits cs
        (c :: ds, rest)
      else ([], c :: cs)

/-- Hex digit value, if any. -/
def hexVal (c : Char) : Option Nat :=
  if c.isDigit then some (c.toNat - 48)
  else if 'a' ≤ c ∧ c ≤ 'f' then some (c.toNat - 87)
  else if 'A' ≤ c ∧ c ≤ 'F' then some (c.toNat - 55)
  else none

/-- String body after the opening quote: plain characters up to the closing
quote, with backslash escapes decoded (`\uXXXX` consumes four hex digits). -/
def parseStringBody (acc : List Char) : List Char → Option (String × List Char)
  | [] => none
  | c :: cs =>
      if c = '"' then some (String.mk acc.reverse, cs)
      else if c = '\\' then
        match cs with
        | [] => none
        | e :: cs2 =>
            if e = 'u' then
              match cs2 with
              | h1 :: h2 :: h3 :: h4 :: cs3 =>
                  match hexVal h1, hexVal h2, hexVal h3, hexVal h4 with
                  | some a, some b, some c3, some d =>
                      parseStringBody
                        (Char.ofNat (((a * 16 + b) * 16 + c3) * 16 + d) :: acc) cs3
                  | _, _, _, _ => none
              | _ => none
            else
              let decoded : Char :=
                if e = 'n' then '\n'
                else if e = 't' then '\t'
                else if e = 'r' then '\r'
                else if e = 'b' then Char.ofNat 8
                else if e = 'f' then Char.ofNat 12
                else e
              parseStringBody (decoded :: acc) cs2
      else parseStringBody (c :: acc) cs

/-- Optional fraction part: `.` must be followed by at least one digit. -/
def parseFrac : List Char → Option (List Char)
  | '.' :: t =>
      let (fs, r) := takeDigits t
      if fs = [] then none else some r
  | cs => some cs

/-- Optional exponent part: `e`/`E`, optional sign, at least one digit. -/
def parseExp : List Char → Option (List Char)
  | [] => some []
  | c :: t =>
      if c = 'e' ∨ c = 'E' then
        let t2 := match t with
          | s :: u => if s = '+' ∨ s = '-' then u else s :: u
          | [] => []
        let (es, r) := takeDigits t2
        if es = [] then none else some r
      else some (c :: t)

/-- JSON number: optional minus, digits, optional fraction and exponent.  The
value is retained to integer precision only. -/
def parseNumber (cs : List Char) : Option (Json × List Char) :=
  let (neg, cs1) := match cs with
    | '-' :: t => (true, t)
    | _ => (false, cs)
  let (ds, cs2) := takeDigits cs1
  if ds = [] then none
  else
    match parseFrac cs2 with
    | none => none
    | some cs3 =>
        match parseExp cs3 with
        | none => none
        | some cs4 =>
            let n : Nat := ds.foldl (fun a c => a * 10 + (c.toNat - 48)) 0
            some (Json.num (if neg then -(n : Int) else (n : Int)), cs4)

/-- Literal keyword match. -/
def parseLit (lit : List Char) (cs : List Char) : Option (List Char) :=
  if lit.isPrefixOf cs then some (cs.drop lit.length) else none

mutual

/-- One JSON value, fuel-bounded. -/
def parseValue : Nat → List Char → Option (Json × List Char)
  | 0, _ => none
  | fuel + 1, cs =>
      match skipWs cs with
      | [] => none
      | c :: rest =>
          if c = 'n' then
            (parseLit ['u', 'l', 'l'] rest).map (fun r => (Json.null, r))
          else if c = 't' then
            (parseLit ['r', 'u', 'e'] rest).map (fun r => (Json.bool true, r))
          else if c = 'f' then
            (parseLit ['a', 'l', 's', 'e'] rest).map (fun r => (Json.bool false, r))
          else if c = '"' then
            (parseStringBody [] rest).map (fun p => (Json.str p.1, p.2))
          else if c = '[' then
            match skipWs rest with
            | ']' :: r2 => some (Json.arr [], r2)
            | r2 => (parseElems fuel r2).map (fun p => (Json.arr p.1, p.2))
          else if c = '{' then
            match skipWs rest with
            | '}' :: r2 => some (Json.obj [], r2)
            | r2 => (parseMembers fuel r2).map (fun p => (Json.obj p.1, p.2))
          else parseNumber (c :: rest)

/-- Non-empty array tail: value, then `,` more or `]`. -/
def parseElems : Nat → List Char → Option (List Json × List Char)
  | 0, _ => none
  | fuel + 1, cs =>
      match parseValue fuel cs with
      | none => none
      | some (j, rest) =>
          match skipWs rest with
          | ',' :: r2 =>
              (parseElems fuel r2).map (fun p => (j :: p.1, p.2))
          | ']' :: r2 => some ([j], r2)
          | _ => none

/-- Non-empty object tail: `"key" : value`, then `,` more or `}`. -/
def parseMembers : Nat → List Char → Option (List (String × Json) × List Char)
  | 0, _ => none
  | fuel + 1, cs =>
      match skipWs cs with
      | '"' :: r1 =>
          match parseStringBody [] r1 with
          | none => none
          | some (key, r2) =>
              match skipWs r2 with
              | ':' :: r3 =>
                  match parseValue fuel r3 with
                  | none => none
                  | some (j, r4) =>
                      match skipWs r4 with
                      | ',' :: r5 =>
                          (parseMembers fuel r5).map
                            (fun p => ((key, j) :: p.1, p.2))
                      | '}' :: r5 => some ([(key, j)], r5)
                      | _ => none
              | _ => none
      | _ => none

end

/-- `JSON.parse`: parse one value and require only whitespace after it;
`none` is a thrown `SyntaxError`. -/
def jsonParse (s : String) : Option Json :=
  match parseValue (2 * s.length + 4) s.data with
  | some (j, rest) => if skipWs rest = [] then some j else none
  | none => none

/-- JavaScript truthiness of a parsed JSON value. -/
def jsTruthy : Json → Bool
  | Json.null => false
  | Json.bool b => b
  | Json.num n => !(n == 0)
  | Json.str s => !(s == "")
  | Json.arr _ => true
  | Json.obj _ => true

/-- What the `CodeViewer` page does for a given persisted document:
render the no-data heading, crash with an uncaught error, or render the
file lists. -/
inductive ViewOutcome
  | noData
  | crash
  | rendered (top : Json) (uploads : List (String × Json)) (subs : List Json)

/-- The first render over parsed `data`: `if (!data)` renders the no-data
heading; otherwise `data.uploads[data.topModule]` throws when `data.uploads`
is `undefined` (field absent, or `data` not an object) or `null`, and
`data.subModules.map(...)` throws when `subModules` is not an array.
Rendering below these top-level accesses is not distinguished further. -/
def renderCodeViewer (j : Json) : ViewOutcome :=
  if jsTruthy j then
    match j with
    | Json.obj kvs =>
        match getKey kvs "uploads" with
        | none => ViewOutcome.crash
        | some Json.null => ViewOutcome.crash
        | some up =>
            match getKey kvs "subModules" with
            | some (Json.arr subs) =>
                ViewOutcome.rendered ((getKey kvs "topModule").getD Json.null)
                  (match up with
                   | Json.obj ms => ms
                   | _ => []) subs
            | _ => ViewOutcome.crash
    | _ => ViewOutcome.crash
  else ViewOutcome.noData

/-- The whole load path: `getItem` misses (`null`) or an empty string is
falsy, so `data` stays `null` and the no-data heading renders; otherwise
`JSON.parse(saved)` runs unguarded — a parse failure is an uncaught
exception — and a parsed document is rendered. -/
def codeViewerLoad (saved : Option String) : ViewOutcome :=
  match saved with
  | none => ViewOutcome.noData
  | some s =>
      if s = "" then ViewOutcome.noData
      else
        match jsonParse s with
        | none => ViewOutcome.crash
        | some j => renderCodeViewer j

/-!
### Object-URL lifecycle: `viewURL` in `CodeViewer`, `downloadFile` in `Outputs`
-/

/-- The observable resource operations of the view/download paths. -/
inductive UrlOp
  | createObjectURL (payload : Nat)
  | revokeObjectURL (payload : Nat)
  | domClick
  deriving Repr, DecidableEq

/-- Number of `URL.createObjectURL` calls in a trace. -/
def createCount (ops : List UrlOp) : Nat :=
  (ops.filter fun o => match o with
    | UrlOp.createObjectURL _ => true
    | _ => false).length

/-- Number of `URL.revokeObjectURL` calls in a trace. -/
def revokeCount (ops : List UrlOp) : Nat :=
  (ops.filter fun o => match o with
    | UrlOp.revokeObjectURL _ => true
    | _ => false).length

/-- `downloadFile(content, filename, contentType)` in `Outputs`
(src/unnamed/part_002): build a `Blob`, `URL.createObjectURL(blob)`, click a
temporary anchor, `URL.revokeObjectURL(url)`. -/
def downloadFileOps (content : Nat) : List UrlOp :=
  [UrlOp.createObjectURL content, UrlOp.domClick, UrlOp.revokeObjectURL content]

/-- One file row in `CodeViewer`:
`<a href={viewURL(file)}>View</a> | <a href={viewURL(file)} download>Download</a>` —
two separate `URL.createObjectURL(file)` calls, and no revocation anywhere in
the component. -/
def fileLinkOps (f : FileRef) : List UrlOp :=
  [UrlOp.createObjectURL f.payload, UrlOp.createObjectURL f.payload]

/-- The object-URL operations of one `CodeViewer` render of a well-formed
package: every category list under `uploads[topModule]`, then for each
sub-module the `uploads[sub].communication` list when `uploads[sub]` exists
(else the "No communication docs" branch). -/
def codeViewerRenderOps (p : UploadPackage) : List UrlOp :=
  (match getKey p.uploads p.topModule with
   | some catMap => (catMap.map (fun kv => kv.2.flatMap fileLinkOps)).flatten
   | none => [])
  ++ p.subModules.flatMap (fun sub =>
      match getKey p.uploads sub with
      | some m => ((getKey m "communication").getD []).flatMap fileLinkOps
      | none => [])

/-!
### Concrete scenarios and auxiliary definitions
-/

/-- Run a sequence of monitor events. -/
def runEvents (s : MonitorState) (es : List MEvent) : MonitorState :=
  es.foldl mstep s

/-- The spec's §3 `CategoryKey` enumeration, transcribed from the spec's
words for comparison with what the code accepts (the code itself uses the
short keys `spec`, `tb`, `func`, `arch`, `protocol`, `uvm`, `fv`, `sva`,
`communication` and validates none of them). -/
def specCategoryKeys : List String :=
  ["spec", "testbench-requirements", "functional-design", "architecture-design",
   "protocol", "uvm", "formal-verification", "assertions", "communication"]

/-- A sample user file. -/
def sampleFile : FileRef :=
  { name := "alu_spec.md", sizeBytes := 2048, payload := 1 }

/-- Builder state reached by `setTopModule "TOP"`, growing to two sub-modules
and naming both `"ALU"`: two equal, non-empty sub-module names. -/
def dupNameState : UploadState :=
  handleSubModuleNameChange
    (handleSubModuleNameChange
      (handleNumSubModulesChange (setTopModule (initUpload none) "TOP") (some 2))
      0 "ALU")
    1 "ALU"

/-- Builder state reached by naming the sub-module `"S"`, setting the top
module to `"A"`, uploading a spec file for `"A"`, then renaming the top
module to `"B"`: the recorded upload stays keyed by the stale name `"A"`. -/
def staleKeyState : UploadState :=
  setTopModule
    (handleUpload
      (setTopModule (handleSubModuleNameChange (initUpload none) 0 "S") "A")
      "A" "spec" [sampleFile])
    "B"

/-- The post-submit state of `staleKeyState`: persisted document replaced and
the success status message set. -/
def staleKeySubmitted : UploadState :=
  { staleKeyState with
      persisted := some (mkPackage staleKeyState)
      submitStatus := "Submitted successfully! Redirecting..." }

/-- The spec's §8 scenario: `setTopModule("ALU")`, `setSubModuleCount(2)`,
rename index 0 to `"FSM"` and index 1 to `"Decoder"`,
`recordUpload("ALU","spec",[f1])`. -/
def validState : UploadState :=
  handleUpload
    (handleSubModuleNameChange
      (handleSubModuleNameChange
        (handleNumSubModulesChange (setTopModule (initUpload none) "ALU") (some 2))
        0 "FSM")
      1 "Decoder")
    "ALU" "spec" [sampleFile]

/-- Builder state whose top-module name carries surrounding whitespace. -/
def paddedTopState : UploadState :=
  setTopModule (handleSubModuleNameChange (initUpload none) 0 "S") " ALU "

/-- A persisted package holding one file under the top module. -/
def onePackage : UploadPackage :=
  { topModule := "T", subModules := [], uploads := [("T", [("spec", [sampleFile])])] }

/-- A monitor freshly bound to handle `"A"`. -/
def monitorA : MonitorState := startMonitor initMonitor "A"

/-- A fetch dispatched under handle `"A"` in `monitorA`'s epoch. -/
def fetchA : Fetch :=
  { epoch := monitorA.epoch, taskId := "A", kind := FetchKind.statusFetch }

/-!
### Helper lemmas
-/

/-- Looking up the key just written returns the written value. -/
theorem getKey_setKey_self {β : Type} (l : List (String × β)) (k : String) (v : β) :
    getKey (setKey l k v) k = some v := by
  induction l with
  | nil => simp [setKey, getKey]
  | cons hd tl ih =>
      obtain ⟨k1, v1⟩ := hd
      by_cases hk : k1 = k
      · simp [setKey, getKey, hk]
      · simp [setKey, getKey, hk, ih]

/-- Staleness is the negation of the `mounted` gate checked at completion. -/
theorem staleFetch_iff (s : MonitorState) (f : Fetch) :
    staleFetch s f ↔ ¬ (f.epoch = s.epoch ∧ s.active = true) := by
  unfold staleFetch
  constructor
  · rintro (h | h) ⟨h1, h2⟩
    · exact h h1
    · rw [h] at h2
      exact Bool.false_ne_true h2
  · intro h
    by_cases he : f.epoch = s.epoch
    · cases ha : s.active
      · exact Or.inr rfl
      · exact absurd ⟨he, ha⟩ h
    · exact Or.inl he

/-- Completing a stale status fetch never touches the snapshot. -/
theorem completeStatus_stale (s : MonitorState) (f : Fetch) (r : Option StatusResp)
    (h : staleFetch s f) : (completeStatus s f r).snapshot = s.snapshot := by
  have hc := (staleFetch_iff s f).mp h
  cases r <;> simp [completeStatus, hc]

/-- Completing a stale log fetch never touches the snapshot. -/
theorem completeLogs_stale (s : MonitorState) (f : Fetch) (r : Option String)
    (h : staleFetch s f) : (completeLogs s f r).snapshot = s.snapshot := by
  have hc := (staleFetch_iff s f).mp h
  cases r <;> simp [completeLogs, hc]

/-- Rebinding the monitor (to any handle, even an empty one) makes every
previously dispatched fetch stale. -/
theorem stale_startMonitor (s : MonitorState) (b : String) (f : Fetch)
    (hbound : f.epoch ≤ s.epoch) : staleFetch (startMonitor s b) f := by
  by_cases hb : b = ""
  · exact Or.inr (by simp [startMonitor, cleanupMonitor, hb])
  · refine Or.inl ?_
    simp only [startMonitor, cleanupMonitor, if_neg hb]
    omega

/-- One monitor event preserves staleness of a fetch dispatched no later
than the current epoch, and never rewinds the epoch below it. -/
theorem stale_mstep (s : MonitorState) (e : MEvent) (f : Fetch)
    (hbound : f.epoch ≤ s.epoch) (h : staleFetch s f) :
    staleFetch (mstep s e) f ∧ f.epoch ≤ (mstep s e).epoch := by
  cases e with
  | startEv id =>
      by_cases hid : id = ""
      · constructor
        · exact Or.inr (by simp [mstep, startMonitor, cleanupMonitor, hid])
        · simpa [mstep, startMonitor, cleanupMonitor, hid] using hbound
      · constructor
        · refine Or.inl ?_
          simp only [mstep, startMonitor, cleanupMonitor, if_neg hid]
          omega
        · simp only [mstep, startMonitor, cleanupMonitor, if_neg hid]
          omega
  | stopEv => exact ⟨Or.inr rfl, hbound⟩
  | statusTimer =>
      unfold mstep fireStatus
      cases s.nextStatusAt <;> exact ⟨h, hbound⟩
  | logsTimer =>
      unfold mstep fireLogs
      cases s.nextLogsAt <;> exact ⟨h, hbound⟩
  | statusDone g r =>
      cases r with
      | none => exact ⟨h, hbound⟩
      | some resp =>
          simp only [mstep, completeStatus]
          split <;> exact ⟨h, hbound⟩
  | logsDone g r =>
      cases r with
      | none => exact ⟨h, hbound⟩
      | some lv =>
          simp only [mstep, completeLogs]
          split <;> exact ⟨h, hbound⟩

/-- Staleness persists across any sequence of later monitor events. -/
theorem stale_runEvents (es : List MEvent) (s : MonitorState) (f : Fetch)
    (hbound : f.epoch ≤ s.epoch) (h : staleFetch s f) :
    staleFetch (runEvents s es) f := by
  induction es generalizing s with
  | nil => exact h
  | cons e tl ih =>
      have hs := stale_mstep s e f hbound h
      exact ih (mstep s e) hs.2 hs.1

/-!
### Claim theorems
-/

/-- C1: after `stop()` or a rebind to any handle `b`, a fetch dispatched
no later than the current epoch is stale: completing it — status or logs,
success or failure — leaves the snapshot byte-identical, and staleness is
preserved by every later event sequence, so its data is never applied to
any subsequent snapshot either. -/
theorem C1_stale_results_discarded (s : MonitorState) (f : Fetch)
    (r : Option StatusResp) (lv : Option String) (b : String) (es : List MEvent)
    (hbound : f.epoch ≤ s.epoch) :
    (completeStatus (stopMonitor s) f r).snapshot = (stopMonitor s).snapshot
    ∧ (completeLogs (stopMonitor s) f lv).snapshot = (stopMonitor s).snapshot
    ∧ (completeStatus (startMonitor s b) f r).snapshot
        = (startMonitor s b).snapshot
    ∧ (completeLogs (startMonitor s b) f lv).snapshot
        = (startMonitor s b).snapshot
    ∧ staleFetch (stopMonitor s) f
    ∧ staleFetch (startMonitor s b) f
    ∧ (staleFetch s f → staleFetch (runEvents s es) f) := by
  have h1 : staleFetch (stopMonitor s) f := Or.inr rfl
  have h2 : staleFetch (startMonitor s b) f := stale_startMonitor s b f hbound
  exact ⟨completeStatus_stale _ f r h1, completeLogs_stale _ f lv h1,
    completeStatus_stale _ f r h2, completeLogs_stale _ f lv h2, h1, h2,
    fun hs => stale_runEvents es s f hbound hs⟩

/-- C1 witness: a monitor bound to `"A"` with one in-flight status fetch;
stopping it, or rebinding it to `"B"`, discards the fetch's late completion. -/
theorem C1_witness :
    fetchA.epoch ≤ monitorA.epoch
    ∧ ((completeStatus (stopMonitor monitorA) fetchA
          (some { status := "running", progress := some 10 })).snapshot
        = (stopMonitor monitorA).snapshot
      ∧ (completeLogs (stopMonitor monitorA) fetchA (some "init\n")).snapshot
          = (stopMonitor monitorA).snapshot
      ∧ (completeStatus (startMonitor monitorA "B") fetchA
            (some { status := "running", progress := some 10 })).snapshot
          = (startMonitor monitorA "B").snapshot
      ∧ (completeLogs (startMonitor monitorA "B") fetchA (some "init\n")).snapshot
          = (startMonitor monitorA "B").snapshot
      ∧ staleFetch (stopMonitor monitorA) fetchA
      ∧ staleFetch (startMonitor monitorA "B") fetchA
      ∧ (staleFetch monitorA fetchA →
          staleFetch (runEvents monitorA [MEvent.stopEv]) fetchA)) :=
  ⟨by decide,
    C1_stale_results_discarded monitorA fetchA
      (some { status := "running", progress := some 10 }) (some "init\n") "B"
      [MEvent.stopEv] (by decide)⟩

/-- C5 counterexample: binding handle `t-1` to an idle monitor dispatches no
fetch at start time — `pending` stays empty and the two `setInterval` timers
only first fire a full period after start (1500 ms and 2000 ms), which is
when the first status fetch is actually dispatched.  The claim's immediate
first fetch does not happen. -/
theorem C5_counterexample :
    (startMonitor initMonitor "t-1").active = true
    ∧ (startMonitor initMonitor "t-1").pending = []
    ∧ (startMonitor initMonitor "t-1").nextStatusAt
        = some (initMonitor.now + statusIntervalMs)
    ∧ (startMonitor initMonitor "t-1").nextLogsAt
        = some (initMonitor.now + logsIntervalMs)
    ∧ statusIntervalMs ≠ 0
    ∧ logsIntervalMs ≠ 0
    ∧ (fireStatus (startMonitor initMonitor "t-1")).now
        = initMonitor.now + statusIntervalMs
    ∧ (fireStatus (startMonitor initMonitor "t-1")).pending
        = [{ epoch := 1, taskId := "t-1", kind := FetchKind.statusFetch }] := by
  decide

/-- C5 amended: `start(h)` with a non-empty handle transitions the monitor to
Active and schedules both loops, but fires no fetch immediately: the first
status fetch is dispatched one full `T_status` interval after start and the
first log fetch one full `T_logs` interval after start. -/
theorem C5_start_schedules_without_immediate_fetch (s : MonitorState)
    (h : String) (hid : ¬ h = "") :
    (startMonitor s h).active = true
    ∧ (startMonitor s h).boundId = h
    ∧ (startMonitor s h).epoch = s.epoch + 1
    ∧ (startMonitor s h).pending = s.pending
    ∧ (startMonitor s h).nextStatusAt = some (s.now + statusIntervalMs)
    ∧ (startMonitor s h).nextLogsAt = some (s.now + logsIntervalMs)
    ∧ (fireStatus (startMonitor s h)).now = s.now + statusIntervalMs
    ∧ (fireStatus (startMonitor s h)).pending
        = s.pending
            ++ [{ epoch := s.epoch + 1, taskId := h, kind := FetchKind.statusFetch }]
    ∧ (fireLogs (startMonitor s h)).now = s.now + logsIntervalMs
    ∧ (fireLogs (startMonitor s h)).pending
        = s.pending
            ++ [{ epoch := s.epoch + 1, taskId := h, kind := FetchKind.logsFetch }] := by
  simp [startMonitor, cleanupMonitor, fireStatus, fireLogs, hid]

/-- C5 witness: the amended statement at the idle monitor and handle `t-1`. -/
theorem C5_witness :
    ¬ "t-1" = ""
    ∧ ((startMonitor initMonitor "t-1").active = true
      ∧ (startMonitor initMonitor "t-1").boundId = "t-1"
      ∧ (startMonitor initMonitor "t-1").epoch = initMonitor.epoch + 1
      ∧ (startMonitor initMonitor "t-1").pending = initMonitor.pending
      ∧ (startMonitor initMonitor "t-1").nextStatusAt
          = some (initMonitor.now + statusIntervalMs)
      ∧ (startMonitor initMonitor "t-1").nextLogsAt
          = some (initMonitor.now + logsIntervalMs)
      ∧ (fireStatus (startMonitor initMonitor "t-1")).now
          = initMonitor.now + statusIntervalMs
      ∧ (fireStatus (startMonitor initMonitor "t-1")).pending
          = initMonitor.pending
              ++ [{ epoch := initMonitor.epoch + 1, taskId := "t-1",
                    kind := FetchKind.statusFetch }]
      ∧ (fireLogs (startMonitor initMonitor "t-1")).now
          = initMonitor.now + logsIntervalMs
      ∧ (fireLogs (startMonitor initMonitor "t-1")).pending
          = initMonitor.pending
              ++ [{ epoch := initMonitor.epoch + 1, taskId := "t-1",
                    kind := FetchKind.logsFetch }]) :=
  ⟨by decide,
    C5_start_schedules_without_immediate_fetch initMonitor "t-1" (by decide)⟩

/-- C8: a successful log fetch that passes the `mounted` gate overwrites the
snapshot's `logs` wholesale with the fetched value — the result is the
fetched string itself, independent of the previous `logs`, so nothing is
appended — while `status` and `progress` are untouched; a failed log fetch
leaves the whole snapshot untouched. -/
theorem C8_logs_overwritten_wholesale (s : MonitorState) (f : Fetch)
    (lv : String) (happly : f.epoch = s.epoch ∧ s.active = true) :
    (completeLogs s f (some lv)).snapshot.logs = lv
    ∧ (completeLogs s f (some lv)).snapshot.status = s.snapshot.status
    ∧ (completeLogs s f (some lv)).snapshot.progress = s.snapshot.progress
    ∧ (completeLogs s f none).snapshot = s.snapshot := by
  simp [completeLogs, happly.1, happly.2]

/-- C8 witness: the live fetch of `monitorA` completing with `"init\n"`. -/
theorem C8_witness :
    (fetchA.epoch = monitorA.epoch ∧ monitorA.active = true)
    ∧ ((completeLogs monitorA fetchA (some "init\n")).snapshot.logs = "init\n"
      ∧ (completeLogs monitorA fetchA (some "init\n")).snapshot.status
          = monitorA.snapshot.status
      ∧ (completeLogs monitorA fetchA (some "init\n")).snapshot.progress
          = monitorA.snapshot.progress
      ∧ (completeLogs monitorA fetchA none).snapshot = monitorA.snapshot) :=
  ⟨by decide, C8_logs_overwritten_wholesale monitorA fetchA "init\n" (by decide)⟩

/-- C2 counterexample: a builder state with the duplicate sub-module names
`["ALU", "ALU"]` submits successfully — no duplicate check exists — and the
persisted current package is replaced (here: written where none existed). -/
theorem C2_counterexample :
    dupNameState.subModuleNames = ["ALU", "ALU"]
    ∧ (handleSubmit dupNameState).1
        = SubmitOutcome.submitted (mkPackage dupNameState)
    ∧ dupNameState.persisted = none
    ∧ (handleSubmit dupNameState).2.persisted = some (mkPackage dupNameState) := by
  decide

/-- C2 amended: a sub-module name that is empty after trimming blocks the
submission — one of the two validation alerts fires — and the whole builder
state, including the persisted package, is left unchanged.  Duplicate names
are not checked and do not cause failure. -/
theorem C2_empty_name_blocks_submit (s : UploadState)
    (h : (s.subModuleNames.any fun name => jsTrim name = "") = true) :
    ((handleSubmit s).1 = SubmitOutcome.errTopModule
      ∨ (handleSubmit s).1 = SubmitOutcome.errSubModules)
    ∧ (handleSubmit s).2 = s := by
  unfold handleSubmit
  split_ifs
  · exact ⟨Or.inl rfl, rfl⟩
  · exact ⟨Or.inr rfl, rfl⟩

/-- C2 witness: the initial builder state has the one empty sub-module name,
so submission is blocked and nothing is persisted. -/
theorem C2_witness :
    ((initUpload none).subModuleNames.any fun name => jsTrim name = "") = true
    ∧ (((handleSubmit (initUpload none)).1 = SubmitOutcome.errTopModule
        ∨ (handleSubmit (initUpload none)).1 = SubmitOutcome.errSubModules)
      ∧ (handleSubmit (initUpload none)).2 = initUpload none) :=
  ⟨by decide, C2_empty_name_blocks_submit (initUpload none) (by decide)⟩

/-- C3 counterexample: uploading under top module `"A"` and then renaming the
top module to `"B"` leaves the upload keyed by the stale name `"A"`; the
submit succeeds and finalizes a package whose `uploads` key `"A"` names
neither `topModule` nor any sub-module, violating the claimed invariant. -/
theorem C3_counterexample :
    (handleSubmit staleKeyState).1
        = SubmitOutcome.submitted (mkPackage staleKeyState)
    ∧ (mkPackage staleKeyState).uploads.map Prod.fst = ["A"]
    ∧ (mkPackage staleKeyState).topModule = "B"
    ∧ (mkPackage staleKeyState).subModules = ["S"]
    ∧ ¬ packageInvariant (mkPackage staleKeyState) := by
  decide

/-- C3 amended: a successful submit passes the builder's `uploads` mapping —
along with `topModule` and `subModules` — through to the finalized package
unfiltered, so upload entries keyed by stale, partial or empty module names
survive finalization. -/
theorem C3_uploads_passthrough (s : UploadState) (pkg : UploadPackage)
    (s2 : UploadState)
    (h : handleSubmit s = (SubmitOutcome.submitted pkg, s2)) :
    pkg.topModule = s.topModule
    ∧ pkg.subModules = s.subModuleNames
    ∧ pkg.uploads = s.uploads := by
  simp only [handleSubmit] at h
  split_ifs at h
  · simp at h
  · simp at h
  · rw [Prod.mk.injEq] at h
    obtain ⟨h1, h2⟩ := h
    injection h1 with h3
    subst h3
    exact ⟨rfl, rfl, rfl⟩

/-- C3 witness: the stale-key scenario instantiating the pass-through. -/
theorem C3_witness :
    handleSubmit staleKeyState
      = (SubmitOutcome.submitted (mkPackage staleKeyState), staleKeySubmitted)
    ∧ ((mkPackage staleKeyState).topModule = staleKeyState.topModule
      ∧ (mkPackage staleKeyState).subModules = staleKeyState.subModuleNames
      ∧ (mkPackage staleKeyState).uploads = staleKeyState.uploads) :=
  ⟨by decide,
    C3_uploads_passthrough staleKeyState (mkPackage staleKeyState)
      staleKeySubmitted (by decide)⟩

/-- C6: with a top-module name non-empty after trimming and N ≥ 1 unique
sub-module names all non-empty after trimming, submit succeeds, the finalized
package's `subModules` has exactly those N names, and the persisted current
package is replaced wholesale by exactly the finalized package. -/
theorem C6_valid_build_succeeds (s : UploadState)
    (htop : ¬ jsTrim s.topModule = "")
    (hnames : ∀ n ∈ s.subModuleNames, ¬ jsTrim n = "")
    (_hnodup : s.subModuleNames.Nodup)
    (_hlen : 1 ≤ s.subModuleNames.length) :
    (handleSubmit s).1 = SubmitOutcome.submitted (mkPackage s)
    ∧ (mkPackage s).subModules.length = s.subModuleNames.length
    ∧ (handleSubmit s).2
        = { s with
              persisted := some (mkPackage s)
              submitStatus := "Submitted successfully! Redirecting..." } := by
  have hany : (s.subModuleNames.any fun name => jsTrim name = "") = false := by
    rw [List.any_eq_false]
    intro x hx
    simpa using hnames x hx
  simp only [handleSubmit]
  rw [if_neg htop, if_neg (by simp [hany])]
  exact ⟨rfl, rfl, rfl⟩

/-- C6 witness: the spec's §8 scenario — top module `"ALU"`, sub-modules
`["FSM", "Decoder"]`, one spec upload — builds and persists as claimed. -/
theorem C6_witness :
    (¬ jsTrim validState.topModule = "")
    ∧ (∀ n ∈ validState.subModuleNames, ¬ jsTrim n = "")
    ∧ validState.subModuleNames.Nodup
    ∧ 1 ≤ validState.subModuleNames.length
    ∧ ((handleSubmit validState).1
          = SubmitOutcome.submitted (mkPackage validState)
      ∧ (mkPackage validState).subModules.length
          = validState.subModuleNames.length
      ∧ (handleSubmit validState).2
          = { validState with
                persisted := some (mkPackage validState)
                submitStatus := "Submitted successfully! Redirecting..." }) :=
  ⟨by decide, by decide, by decide, by decide,
    C6_valid_build_succeeds validState (by decide) (by decide) (by decide)
      (by decide)⟩

/-- C7 counterexample: `"bogus"` is outside the spec's closed `CategoryKey`
enumeration, yet `handleUpload` records it without any validation — the
uploads mapping changes instead of the call being rejected. -/
theorem C7_counterexample :
    "bogus" ∉ specCategoryKeys
    ∧ (handleUpload (initUpload none) "ALU" "bogus" [sampleFile]).uploads
        = [("ALU", [("bogus", [sampleFile])])]
    ∧ (handleUpload (initUpload none) "ALU" "bogus" [sampleFile]).uploads
        ≠ (initUpload none).uploads := by
  decide

/-- C7 amended: `handleUpload` validates nothing: for every module name and
every category string — known or unknown — the call records the file list
under that `(module, category)` pair, replacing any previous list. -/
theorem C7_any_category_recorded (s : UploadState) (m c : String)
    (files : List FileRef) :
    getKey (handleUpload s m c files).uploads m
      = some (setKey ((getKey s.uploads m).getD []) c files)
    ∧ getKey (setKey ((getKey s.uploads m).getD []) c files) c = some files :=
  ⟨getKey_setKey_self _ _ _, getKey_setKey_self _ _ _⟩

/-- C9 counterexample: `setTopModule " ALU "` stores the raw, untrimmed
string, and a submit from that state finalizes a package whose `topModule`
still carries the surrounding whitespace. -/
theorem C9_counterexample :
    (setTopModule (initUpload none) " ALU ").topModule = " ALU "
    ∧ jsTrim " ALU " = "ALU"
    ∧ (setTopModule (initUpload none) " ALU ").topModule ≠ jsTrim " ALU "
    ∧ (handleSubmit paddedTopState).1
        = SubmitOutcome.submitted (mkPackage paddedTopState)
    ∧ (mkPackage paddedTopState).topModule = " ALU " := by
  decide

/-- C9 amended: `setTopModule` stores the raw name with no trimming, so a
finalized package's `topModule` can carry surrounding whitespace; a name
empty after trimming is still accepted at set time and only surfaces later,
as the submit-time validation error that leaves the state unchanged. -/
theorem C9_raw_name_stored (s : UploadState) (n : String) :
    (setTopModule s n).topModule = n
    ∧ (jsTrim n = "" →
        (handleSubmit (setTopModule s n)).1 = SubmitOutcome.errTopModule
        ∧ (handleSubmit (setTopModule s n)).2 = setTopModule s n) := by
  refine ⟨rfl, fun h => ?_⟩
  simp only [handleSubmit, setTopModule]
  rw [if_pos h]
  exact ⟨rfl, rfl⟩

/-- C9 witness: a whitespace-only top-module name is stored raw and blocks
only at submit time. -/
theorem C9_witness :
    jsTrim "  " = ""
    ∧ (setTopModule (initUpload none) "  ").topModule = "  "
    ∧ (handleSubmit (setTopModule (initUpload none) "  ")).1
        = SubmitOutcome.errTopModule :=
  ⟨by decide, (C9_raw_name_stored (initUpload none) "  ").1,
    ((C9_raw_name_stored (initUpload none) "  ").2 (by decide)).1⟩

/-- C4: evaluating the persisted-load path of `CodeViewer`.  A missing
document renders the no-data state, but a corrupted one does not: the
unguarded `JSON.parse` of the stored string `\x7b` throws an uncaught
`SyntaxError`, and a syntactically valid but wrongly shaped document (`5`)
crashes at the `data.uploads[data.topModule]` dereference, while a
well-shaped document renders.  The spec's required fail-closed behaviour
(treat corrupted exactly as missing) is not implemented. -/
theorem C4_crash_on_corrupt_persisted :
    codeViewerLoad (some "\x7b") = ViewOutcome.crash
    ∧ codeViewerLoad (some "5") = ViewOutcome.crash
    ∧ codeViewerLoad none = ViewOutcome.noData
    ∧ codeViewerLoad
        (some "\x7b\"topModule\":\"ALU\",\"subModules\":[],\"uploads\":\x7b\x7d\x7d")
        = ViewOutcome.rendered (Json.str "ALU") [] [] :=
  ⟨rfl, rfl, rfl, rfl⟩

/-- A trace with no `revokeObjectURL` operation has revoke count zero. -/
theorem revokeCount_eq_zero (ops : List UrlOp)
    (h : ∀ o ∈ ops, ∀ u, o ≠ UrlOp.revokeObjectURL u) : revokeCount ops = 0 := by
  unfold revokeCount
  rw [List.length_eq_zero, List.filter_eq_nil_iff]
  intro a ha
  cases a with
  | createObjectURL u => simp
  | revokeObjectURL u =>
      intro _
      exact h _ ha u rfl
  | domClick => simp

/-- Every operation a `CodeViewer` render performs on object URLs is a
creation: the component never calls `URL.revokeObjectURL`. -/
theorem codeViewerRenderOps_create_only (p : UploadPackage) (o : UrlOp)
    (ho : o ∈ codeViewerRenderOps p) : ∃ u, o = UrlOp.createObjectURL u := by
  unfold codeViewerRenderOps at ho
  rw [List.mem_append] at ho
  have hfile : ∀ (f : FileRef), o ∈ fileLinkOps f → ∃ u, o = UrlOp.createObjectURL u := by
    intro f hf
    simp only [fileLinkOps, List.mem_cons, List.mem_singleton] at hf
    rcases hf with hf | hf | hf
    · exact ⟨f.payload, hf⟩
    · exact ⟨f.payload, hf⟩
    · exact absurd hf (List.not_mem_nil o)
  rcases ho with h1 | h2
  · revert h1
    split
    · intro h1
      rw [List.mem_flatten] at h1
      obtain ⟨l, hl, hol⟩ := h1
      rw [List.mem_map] at hl
      obtain ⟨kv, _, rfl⟩ := hl
      rw [List.mem_flatMap] at hol
      obtain ⟨f, _, hof⟩ := hol
      exact hfile f hof
    · intro h1
      exact absurd h1 (List.not_mem_nil o)
  · rw [List.mem_flatMap] at h2
    obtain ⟨sub, _, ho2⟩ := h2
    revert ho2
    split
    · intro ho2
      rw [List.mem_flatMap] at ho2
      obtain ⟨f, _, hof⟩ := ho2
      exact hfile f hof
    · intro ho2
      exact absurd ho2 (List.not_mem_nil o)

/-- C10 counterexample: one `CodeViewer` render of a package holding a single
file creates two object URLs (one for the View link, one for the Download
link) and revokes none, so the number of handle-creating calls differs from
the number of revocations for that complete view operation. -/
theorem C10_counterexample :
    createCount (codeViewerRenderOps onePackage) = 2
    ∧ revokeCount (codeViewerRenderOps onePackage) = 0
    ∧ createCount (codeViewerRenderOps onePackage)
        ≠ revokeCount (codeViewerRenderOps onePackage) := by
  decide

/-- C10 amended: `downloadFile` in `Outputs` balances its handle exactly
(one creation, one revocation per call), but `CodeViewer` revokes nothing:
every render leaves all of its created object URLs unrevoked. -/
theorem C10_download_balanced_viewer_leaks (content : Nat) (p : UploadPackage) :
    createCount (downloadFileOps content) = 1
    ∧ revokeCount (downloadFileOps content) = 1
    ∧ revokeCount (codeViewerRenderOps p) = 0 := by
  refine ⟨rfl, rfl, revokeCount_eq_zero _ ?_⟩
  intro o ho u hrev
  obtain ⟨w, hw⟩ := codeViewerRenderOps_create_only p o ho
  rw [hw] at hrev
  exact UrlOp.noConfusion hrev
